import Mathlib

/-!
# VidCollector: verification of the crawl / classification / ingestion logic

A shallow embedding of the core logic of the VidCollector repository
(`src/vidcollector/youtube_scraper.py`, `scraping_crawler.py`, `crawler.py`,
`database.py`) together with theorems settling the specification claims.

Modelling conventions:
* Python strings are `String`; code points are `Char`.
* Python floats arising as ratios of character counts are modelled as `ℚ`
  (all values appearing in the claims are exactly representable).
* External effects (the browser fetch, the statistical language detector,
  the download service, subtitle files on disk) are oracle parameters.
* The SQLite tables are association lists of typed rows; `INSERT OR REPLACE`
  against a `UNIQUE` key deletes the conflicting row and appends the new one.
-/

namespace VidCollector

/-! ## FarsiDetector (`youtube_scraper.py`, class `FarsiDetector`) -/

/-- The character class of `FarsiDetector.PERSIAN_CHARS`, the regex
`[؀-ۿݐ-ݿࢠ-ࣿﭐ-﷿ﹰ-﻿]`:
true iff the code point lies in one of the five ranges. -/
def isPersianChar (c : Char) : Bool :=
  (0x0600 ≤ c.toNat && c.toNat ≤ 0x06FF) ||
  (0x0750 ≤ c.toNat && c.toNat ≤ 0x077F) ||
  (0x08A0 ≤ c.toNat && c.toNat ≤ 0x08FF) ||
  (0xFB50 ≤ c.toNat && c.toNat ≤ 0xFDFF) ||
  (0xFE70 ≤ c.toNat && c.toNat ≤ 0xFEFF)

/-- Python's `str.isalpha` (the Unicode `Alphabetic` property), embedded
exactly on the code-point ranges this development exercises: ASCII letters
and the letter ranges of the Arabic blocks (Arabic letters U+0620–U+064A,
U+066E–U+066F, U+0671–U+06D3, U+06D5, U+06E5–U+06E6, U+06EE–U+06EF,
U+06FA–U+06FC, U+06FF, and the Arabic Supplement U+0750–U+077F).
Combining marks, Arabic-Indic and extended Arabic-Indic digits
(U+0660–U+0669, U+06F0–U+06F9), punctuation and whitespace are not
alphabetic, as in Python. -/
def pyIsAlpha (c : Char) : Bool :=
  (0x41 ≤ c.toNat && c.toNat ≤ 0x5A) ||
  (0x61 ≤ c.toNat && c.toNat ≤ 0x7A) ||
  (0x0620 ≤ c.toNat && c.toNat ≤ 0x064A) ||
  (0x066E ≤ c.toNat && c.toNat ≤ 0x066F) ||
  (0x0671 ≤ c.toNat && c.toNat ≤ 0x06D3) ||
  c.toNat = 0x06D5 ||
  (0x06E5 ≤ c.toNat && c.toNat ≤ 0x06E6) ||
  (0x06EE ≤ c.toNat && c.toNat ≤ 0x06EF) ||
  (0x06FA ≤ c.toNat && c.toNat ≤ 0x06FC) ||
  c.toNat = 0x06FF ||
  (0x0750 ≤ c.toNat && c.toNat ≤ 0x077F)

/-- The whitespace set of Python's `str.strip()`, embedded exactly on the
code points this development exercises (ASCII whitespace). -/
def isPySpace (c : Char) : Bool :=
  c = ' ' || c = '\t' || c = '\n' || c = '\r' || c.toNat = 0x0B || c.toNat = 0x0C

/-- Python's `text.strip()`: drop leading and trailing whitespace. -/
def pyStrip (text : String) : List Char :=
  ((text.data.dropWhile isPySpace).reverse.dropWhile isPySpace).reverse

namespace FarsiDetector

/-- `len(cls.PERSIAN_CHARS.findall(text))`: the number of code points of
`text` falling in the Persian/Arabic ranges. -/
def countPersian (text : String) : Nat :=
  text.data.countP (fun c => isPersianChar c)

/-- `len([c for c in text if c.isalpha()])`: the number of alphabetic code
points of `text`. -/
def countAlpha (text : String) : Nat :=
  text.data.countP (fun c => pyIsAlpha c)

/-- `FarsiDetector.has_farsi_chars` (`youtube_scraper.py:35-40`):
false on the empty string, otherwise true iff some code point of `text`
matches `PERSIAN_CHARS`. -/
def has_farsi_chars (text : String) : Bool :=
  if text = "" then false
  else text.data.any (fun c => isPersianChar c)

/-- `FarsiDetector.detect_farsi` (`youtube_scraper.py:42-78`).
`det` is the `langdetect.detect` oracle: `some code` for a successful
detection, `none` for a raised `LangDetectException` (swallowed by the
code).  `if not text or len(text.strip()) < 3` is subsumed by the stripped
length test (the empty string strips to length `0 < 3`).  The float
comparison `farsi_ratio >= min_farsi_ratio` is exact rational arithmetic
here. -/
def detect_farsi (det : String → Option String) (text : String) (minRat : ℚ) : Bool :=
  if (pyStrip text).length < 3 then false
  else if ¬ has_farsi_chars text then false
  else
    let p := countPersian text
    let t := countAlpha text
    if t = 0 then false
    else if det text = some "fa" then true
    else decide ((p : ℚ) / (t : ℚ) ≥ minRat)

/-- The `farsi_score` computation of `YouTubeScraper._extract_video_info`
(`youtube_scraper.py:254-258`), which is also the ratio computed inside
`detect_farsi` (`youtube_scraper.py:61-68`):
`farsi_chars / total_chars` when alphabetic code points exist, `0.0`
otherwise (the empty string falls into the `0.0` branch either way). -/
def farsi_score (text : String) : ℚ :=
  if countAlpha text = 0 then 0
  else (countPersian text : ℚ) / (countAlpha text : ℚ)

/-- Modelled from the spec: the spec's sentence for `is_target_language`
taken literally — "returns false if `text` is empty or under a minimum
length (e.g., 3 characters); otherwise true if `has_target_chars` holds
AND (`score(text) >= min_ratio` OR an auxiliary statistical language
detector independently reports the target language)" — for comparison
with the source's `detect_farsi`. -/
def detect_farsi_spec (det : String → Option String) (text : String) (minRat : ℚ) : Bool :=
  if text = "" ∨ text.length < 3 then false
  else has_farsi_chars text &&
    (decide (farsi_score text ≥ minRat) || decide (det text = some "fa"))

end FarsiDetector

/-! ## YouTubeScraper.extract_video_id (`youtube_scraper.py:137-148`) -/

/-- The regex character class `[a-zA-Z0-9_-]` of the video-id group. -/
def isIdChar (c : Char) : Bool :=
  c.isAlphanum || c = '_' || c = '-'

/-- Take exactly `n` leading id-class characters, as the regex quantifier
`{n}` on the class; `none` when fewer are available. -/
def takeIdChars : Nat → List Char → Option (List Char)
  | 0, _ => some []
  | _ + 1, [] => none
  | n + 1, c :: cs =>
      if isIdChar c then (takeIdChars n cs).map (fun l => c :: l) else none

/-- Match the literal `pat` at the head of `l`, returning the remainder. -/
def matchLitAt : List Char → List Char → Option (List Char)
  | [], rest => some rest
  | _ :: _, [] => none
  | p :: ps, c :: cs => if c = p then matchLitAt ps cs else none

/-- At one string position, try each regex alternative in order: the
alternative's literal part must match here and be followed by 11 id-class
characters (with backtracking to the next alternative otherwise). -/
def tryPatsAt (pats : List (List Char)) (l : List Char) : Option (List Char) :=
  match pats with
  | [] => none
  | p :: ps =>
    match matchLitAt p l with
    | some rest =>
      match takeIdChars 11 rest with
      | some found => some found
      | none => tryPatsAt ps l
    | none => tryPatsAt ps l

/-- `re.search` over the whole string: scan positions left to right,
alternatives in order at each position. -/
def searchPats (pats : List (List Char)) : List Char → Option (List Char)
  | [] => tryPatsAt pats []
  | c :: cs =>
    match tryPatsAt pats (c :: cs) with
    | some found => some found
    | none => searchPats pats cs

/-- `YouTubeScraper.extract_video_id` (`youtube_scraper.py:137-148`): the
first pattern — a `watch?v=` / `youtu.be/` / `embed/` alternation followed
by an 11-character id — is searched first over the whole URL; only if it
matches nowhere is the `youtube.com/v/` pattern tried. -/
def extract_video_id (url : String) : Option String :=
  match searchPats
      ["youtube.com/watch?v=".data, "youtu.be/".data, "youtube.com/embed/".data]
      url.data with
  | some found => some (String.mk found)
  | none =>
    match searchPats ["youtube.com/v/".data] url.data with
    | some found => some (String.mk found)
    | none => none

/-! ## YouTubeScraper.find_farsi_videos (`youtube_scraper.py:329-374`)

The browser fetch is an oracle `String → Option Page`: `some page` when the
page loads (only the fields the crawl loop consumes: `is_farsi` and
`related_videos`, each related entry reduced to its `url` and `is_farsi`);
`none` when `scrape_video_page`'s internal `try` catches a scraping
failure and returns the error dictionary (which has no `is_farsi` key and
an empty `related_videos` list).  A URL on which `extract_video_id` fails
raises `ValueError` before any page fetch; that exception is caught by
`find_farsi_videos`' own `except`, which moves on to the next queue entry.
-/

/-- One entry of a page's `related_videos` list, reduced to the two fields
the crawl loop reads. -/
structure RelatedVideo where
  url : String
  isFarsi : Bool
deriving DecidableEq

/-- A successfully scraped page, reduced to the fields the crawl loop
reads. -/
structure Page where
  isFarsi : Bool
  related : List RelatedVideo
deriving DecidableEq

/-- The working state of `find_farsi_videos`, plus ghost traces of the
events that the claims speak about.  `visited` models the Python `set`
(membership is all that is ever asked of it).  `fetched` records each URL
whose page fetch was actually attempted (entry into the scraping of the
page), `fetchErrors` the subset of those whose fetch failed, and `raised`
the URLs rejected by `extract_video_id` before any fetch. -/
structure CrawlState where
  farsiVideos : List String
  visited : List String
  queue : List String
  fetched : List String
  fetchErrors : List String
  raised : List String
deriving DecidableEq

/-- One iteration of the `while` loop of `find_farsi_videos`
(`youtube_scraper.py:346-371`), for a non-empty queue:
pop the front; skip it if already visited; otherwise add it to `visited`
*before* scraping; on a `ValueError` (invalid URL) continue with the rest
of the queue; on a fetch failure the error dictionary yields no accepted
item and no related candidates; otherwise append the page to the results
when it is Farsi, enqueue the related candidates that are Farsi and not
visited, and truncate the queue to 100 entries (`urls_to_visit[:100]`,
which runs on the normal path but not on the exception path). -/
def crawlStep (oracle : String → Option Page) (s : CrawlState) : CrawlState :=
  match s.queue with
  | [] => s
  | u :: rest =>
    if u ∈ s.visited then { s with queue := rest }
    else
      let s1 := { s with visited := u :: s.visited, queue := rest }
      match extract_video_id u with
      | none => { s1 with raised := s1.raised ++ [u] }
      | some _ =>
        match oracle u with
        | none =>
          { s1 with
              fetched := s1.fetched ++ [u],
              fetchErrors := s1.fetchErrors ++ [u],
              queue := rest.take 100 }
        | some page =>
          { s1 with
              fetched := s1.fetched ++ [u],
              farsiVideos :=
                if page.isFarsi then s1.farsiVideos ++ [u] else s1.farsiVideos,
              queue :=
                (rest ++ (page.related.filter
                    (fun r => r.isFarsi && decide (r.url ∉ s1.visited))).map
                  (fun r => r.url)).take 100 }

/-- The loop guard of `find_farsi_videos`: the loop has terminated when the
queue is empty or the accepted count has reached `max_videos`. -/
def crawlDone (maxV : Nat) (s : CrawlState) : Prop :=
  s.queue = [] ∨ maxV ≤ s.farsiVideos.length

instance (maxV : Nat) (s : CrawlState) : Decidable (crawlDone maxV s) := by
  unfold crawlDone; infer_instance

/-- The `while` loop of `find_farsi_videos`, fuel-indexed: `fuel` bounds
the number of loop iterations (the loop itself need not terminate for an
arbitrary oracle, so every theorem quantifies over the iteration count).
A state satisfying `crawlDone` is returned unchanged. -/
def crawlAux (oracle : String → Option Page) (maxV : Nat) :
    Nat → CrawlState → CrawlState
  | 0, s => s
  | fuel + 1, s =>
    if crawlDone maxV s then s
    else crawlAux oracle maxV fuel (crawlStep oracle s)

/-- The initial state of `find_farsi_videos`: no results, nothing visited,
the seed URL queued. -/
def initState (seed : String) : CrawlState :=
  ⟨[], [], [seed], [], [], []⟩

/-- `YouTubeScraper.find_farsi_videos` (`youtube_scraper.py:329-374`),
run for at most `fuel` loop iterations from the seed. -/
def find_farsi_videos (oracle : String → Option Page) (seed : String)
    (maxV fuel : Nat) : CrawlState :=
  crawlAux oracle maxV fuel (initState seed)

/-! ## The SQLite store (`database.py`)

`DatabaseManager._init_database` creates the `subtitles` table with columns
`(id, video_id, language, subtitle_type, content, file_path, created_at)`
and the constraint `UNIQUE(video_id, language, subtitle_type)`, and the
`videos` table with `video_id TEXT UNIQUE NOT NULL`.  Tables are modelled
as lists of typed rows in insertion order; `INSERT OR REPLACE` against a
`UNIQUE` key deletes any conflicting row and appends the new one. -/

/-- A row of the `videos` table, restricted to the columns
`VideoDatabase.insert_video` sets (`database.py:236-256`); the `tags`
column holds `json.dumps` of the url and the Farsi score, kept here as the
two values. -/
structure VideoRow where
  videoId : String
  title : String
  description : String
  channelTitle : String
  publishedAt : String
  duration : String
  viewCount : Nat
  likeCount : Nat
  language : String
  tagsUrl : String
  tagsFarsiScore : ℚ
  thumbnailUrl : String
deriving DecidableEq

/-- A row of the `subtitles` table (the columns of the schema created in
`DatabaseManager._init_database`, `database.py:48-60`). -/
structure SubRow where
  videoId : String
  language : String
  subtitleType : String
  content : String
  filePath : Option String
deriving DecidableEq

/-- The two tables the claims are about. -/
structure Store where
  videos : List VideoRow
  subtitles : List SubRow
deriving DecidableEq

/-- `VideoDatabase.video_exists` (`database.py:226-234`): `SELECT 1 FROM
videos WHERE video_id = ?` is non-empty.  (`DatabaseManager.video_exists`,
`database.py:132-137`, runs the same query.) -/
def video_exists (st : Store) (vid : String) : Bool :=
  st.videos.any (fun r => r.videoId == vid)

/-- `VideoDatabase.insert_video` (`database.py:236-256`): `INSERT OR
REPLACE INTO videos` keyed on the `UNIQUE` column `video_id`; every column
named in the statement exists in the schema, so the insert succeeds and
`True` is returned. -/
def insert_video (st : Store) (row : VideoRow) : Store × Bool :=
  ({ st with
      videos := st.videos.filter (fun r => r.videoId != row.videoId) ++ [row] },
    true)

/-- `DatabaseManager.insert_subtitle` (`database.py:113-130`): `INSERT OR
REPLACE INTO subtitles (video_id, language, subtitle_type, content,
file_path)` — the conflict target is the `UNIQUE(video_id, language,
subtitle_type)` constraint, so the row with the same triple (if any) is
replaced; returns `True`. -/
def DatabaseManager.insert_subtitle (st : Store) (vid lang stype content : String)
    (fp : Option String) : Store × Bool :=
  ({ st with
      subtitles := st.subtitles.filter
          (fun r => !(r.videoId == vid && r.language == lang &&
            r.subtitleType == stype)) ++
        [⟨vid, lang, stype, content, fp⟩] },
    true)

/-- `VideoDatabase.insert_subtitle` (`database.py:258-275`): the statement
`INSERT OR REPLACE INTO subtitles (video_id, language, content, format,
source, file_path, word_count, char_count)` names the columns `format`,
`source`, `word_count` and `char_count`, none of which exist in the
`subtitles` table created by `DatabaseManager._init_database` (the only
schema this module ever creates, and `VideoDatabase.__init__` runs it).
SQLite therefore raises `OperationalError` ("table subtitles has no column
named format"); the `except` clause prints the error and returns `False`,
and no row is committed: the table is unchanged. -/
def VideoDatabase.insert_subtitle (st : Store) (_vid _lang _content _fmt _src : String)
    (_fp : String) : Store × Bool :=
  (st, false)

/-! ## FarsiVideoCrawler (`scraping_crawler.py`) -/

/-- The fields of a `video_info` dictionary that
`FarsiVideoCrawler._process_video` reads.  `videoId` is `Option` because
the code tests `if not video_id` (a missing — or falsy — id). -/
structure VideoInfo where
  videoId : Option String
  title : String
  description : String
  channel : String
  duration : String
  url : String
  farsiScore : ℚ
deriving DecidableEq

/-- The result of `DownloadManager.download_video_with_subtitles` as
consumed by `_process_video`: the `success` flag and the
`subtitle_files` map of language to subtitle-file path (a `None` path is
skipped).  A raised download exception is observationally the failure
result (`downloaded` stays false and no subtitle loop runs either way). -/
structure DownloadResult where
  success : Bool
  subtitleFiles : List (String × Option String)
deriving DecidableEq

/-- The result dictionary of `_process_video`, plus the ghost flag
`skipped` marking the already-in-store no-op branch. -/
structure ProcessResult where
  videoId : Option String
  success : Bool
  subtitlesCount : Nat
  downloaded : Bool
  errorMsg : Option String
  skipped : Bool
deriving DecidableEq

/-- `'srt' if subtitle_file.endswith('.srt') else 'vtt'`
(`scraping_crawler.py:209`). -/
def formatOfPath (path : String) : String :=
  if path.data.reverse.take 4 = (".srt".data).reverse then "srt" else "vtt"

/-- The subtitle-storing loop of `_process_video`
(`scraping_crawler.py:198-216`): for each `(language, subtitle_file)` with
a non-`None` path, read the file (`readFile path = none` models a raised
read error, caught and logged); on a successful read call
`VideoDatabase.insert_subtitle` and then increment `subtitles_count` —
the boolean returned by `insert_subtitle` is not consulted. -/
def storeSubtitles (readFile : String → Option String) (vid : String) :
    List (String × Option String) → Store → Nat × Store
  | [], st => (0, st)
  | (lang, pathOpt) :: rest, st =>
    match pathOpt with
    | none => storeSubtitles readFile vid rest st
    | some path =>
      match readFile path with
      | none => storeSubtitles readFile vid rest st
      | some content =>
        let st1 := (VideoDatabase.insert_subtitle st vid lang content
          (formatOfPath path) "downsub.com" path).1
        let (n, st2) := storeSubtitles readFile vid rest st1
        (n + 1, st2)

/-- `FarsiVideoCrawler._process_video` (`scraping_crawler.py:148-229`):
no id → error result; id already in the store → no-op success (the
`skipped` ghost flag); otherwise insert the metadata row, optionally run
the download and subtitle-storing step, and report success. -/
def _process_video (dl : String → DownloadResult)
    (readFile : String → Option String) (st : Store) (v : VideoInfo)
    (downloadContent : Bool) : ProcessResult × Store :=
  match v.videoId with
  | none => (⟨none, false, 0, false, some "No video ID found", false⟩, st)
  | some vid =>
    if video_exists st vid then
      (⟨some vid, true, 0, false, none, true⟩, st)
    else
      let st1 := (insert_video st
        ⟨vid, v.title, v.description, v.channel, "", v.duration, 0, 0, "fa",
          v.url, v.farsiScore, ""⟩).1
      if downloadContent then
        let d := dl v.url
        if d.success then
          let (n, st2) := storeSubtitles readFile vid d.subtitleFiles st1
          (⟨some vid, true, n, true, none, false⟩, st2)
        else
          (⟨some vid, true, 0, false, none, false⟩, st1)
      else
        (⟨some vid, true, 0, false, none, false⟩, st1)

/-- The `stats` dictionary of `FarsiVideoCrawler.crawl_from_url`
(the counters the claims read). -/
structure RunStats where
  videosFound : Nat
  videosProcessed : Nat
  videosDownloaded : Nat
  subtitlesExtracted : Nat
  errors : Nat
deriving DecidableEq

/-- The per-video processing loop of `crawl_from_url`
(`scraping_crawler.py:70-88`): each result with `success` bumps
`videos_processed` (and `videos_downloaded` / `subtitles_extracted`),
each failure bumps `errors`.  The second component counts the ghost
`skipped` flags (the spec's "skip as no-op" count). -/
def processVideos (dl : String → DownloadResult)
    (readFile : String → Option String) (downloadContent : Bool) :
    List VideoInfo → Store → RunStats → Nat → RunStats × Nat × Store
  | [], st, stats, skips => (stats, skips, st)
  | v :: rest, st, stats, skips =>
    let (r, st') := _process_video dl readFile st v downloadContent
    let stats' :=
      if r.success then
        { stats with
            videosProcessed := stats.videosProcessed + 1,
            videosDownloaded :=
              stats.videosDownloaded + (if r.downloaded then 1 else 0),
            subtitlesExtracted := stats.subtitlesExtracted + r.subtitlesCount }
      else
        { stats with errors := stats.errors + 1 }
    processVideos dl readFile downloadContent rest st' stats'
      (skips + (if r.skipped then 1 else 0))

/-- The `video_info` dictionary reaching `_process_video` for an accepted
page of URL `u`: its `video_id` is `extract_video_id u` (computed by
`scrape_video_page`); the metadata payload fields are not read by any
claim settled through `crawl_from_url` and are carried as the scraping
defaults (`''` / `0.0`). -/
def itemOfUrl (u : String) : VideoInfo :=
  ⟨extract_video_id u, "", "", "", "", u, 0⟩

/-- `FarsiVideoCrawler.crawl_from_url` (`scraping_crawler.py:31-99`):
run `find_farsi_videos`, set `videos_found`, then process every accepted
item.  Returns the final statistics, the ghost skip count, the store, and
the final crawl state. -/
def crawl_from_url (oracle : String → Option Page)
    (dl : String → DownloadResult) (readFile : String → Option String)
    (seed : String) (maxV : Nat) (downloadContent : Bool) (fuel : Nat)
    (st : Store) : RunStats × Nat × Store × CrawlState :=
  let final := find_farsi_videos oracle seed maxV fuel
  let out := processVideos dl readFile downloadContent
    (final.farsiVideos.map itemOfUrl) st ⟨final.farsiVideos.length, 0, 0, 0, 0⟩ 0
  (out.1, out.2.1, out.2.2, final)

/-! ## FarsiVideoCrawler._process_single_video (`crawler.py:230-261`)

The API-based sibling of `_process_video`: it stores each non-empty
caption track through `DatabaseManager.insert_subtitle` and counts only
the tracks for which the insert returned `True`. -/

/-- One caption track returned by `SubtitleExtractor.extract_subtitles`,
as consumed by `_process_single_video`. -/
structure SubtitleData where
  language : String
  kind : String
  content : String
  filePath : Option String
deriving DecidableEq

/-- The storing loop of `_process_single_video` (`crawler.py:244-257`):
for each track with non-blank content, insert through
`DatabaseManager.insert_subtitle` and increment `subtitles_stored` only
when the insert reports success. -/
def storeSubtitlesSingle (vid : String) :
    List SubtitleData → Store → Nat × Store
  | [], st => (0, st)
  | d :: rest, st =>
    if (pyStrip d.content).length > 0 then
      let (st1, ok) := DatabaseManager.insert_subtitle st vid d.language d.kind
        d.content d.filePath
      let (n, st2) := storeSubtitlesSingle vid rest st1
      (n + (if ok then 1 else 0), st2)
    else
      storeSubtitlesSingle vid rest st

/-! ## Claims about the language classifier -/

open FarsiDetector in
/-- C5 counterexample: `score` does not lie in `[0,1]` for every text.
On `"ab۱۲۳"` (two ASCII letters followed by three extended Arabic-Indic
digits) the numerator counts the three digits — they are in the target
range but not alphabetic — while the denominator counts only the two
letters, so the score is `3/2 > 1`. -/
theorem C5_score_above_one :
    farsi_score "ab۱۲۳" = 3 / 2 ∧ ¬ farsi_score "ab۱۲۳" ≤ 1 := by
  have h : farsi_score "ab۱۲۳" = 3 / 2 := by
    simp only [farsi_score]
    norm_num [show countPersian "ab۱۲۳" = 3 from by decide,
      show countAlpha "ab۱۲۳" = 2 from by decide]
  refine ⟨h, ?_⟩
  rw [h]; norm_num

open FarsiDetector in
/-- C5 (amended): `score(text)` is always `≥ 0`; `score("") = 0`;
`score("123 456") = 0`; the score is `0` whenever the text has no
alphabetic code points; and the score is `≤ 1` whenever every
target-range code point of the text is alphabetic (it can exceed `1`
otherwise, because the numerator also counts target-range non-alphabetic
code points such as Arabic-Indic digits). -/
theorem C5_score_properties :
    (∀ text, 0 ≤ farsi_score text) ∧
    farsi_score "" = 0 ∧
    farsi_score "123 456" = 0 ∧
    (∀ text, countAlpha text = 0 → farsi_score text = 0) ∧
    (∀ text, (∀ c ∈ text.data, isPersianChar c → pyIsAlpha c) →
      farsi_score text ≤ 1) := by
  refine ⟨?_, rfl, rfl, ?_, ?_⟩
  · intro text
    unfold farsi_score
    split
    · exact le_refl 0
    · positivity
  · intro text h
    simp [farsi_score, h]
  · intro text h
    unfold farsi_score
    split
    · norm_num
    · rename_i ht
      have hle : countPersian text ≤ countAlpha text :=
        List.countP_mono_left (fun c hc hp => h c hc hp)
      have htpos : 0 < (countAlpha text : ℚ) := by
        exact_mod_cast Nat.pos_of_ne_zero ht
      rw [div_le_one htpos]
      exact_mod_cast hle

open FarsiDetector in
/-- C5 witness: the hypothesis-bearing conjuncts of `C5_score_properties`
at concrete inputs. -/
theorem C5_score_properties_witness :
    farsi_score "123" = 0 ∧ farsi_score "سلام" ≤ 1 :=
  ⟨C5_score_properties.2.2.2.1 "123" (by decide),
   C5_score_properties.2.2.2.2 "سلام" (by decide)⟩

open FarsiDetector in
/-- C4 counterexample: the claimed iff fails on `"۱۲۳"` (three extended
Arabic-Indic digits) with `min_ratio = 0`: the text has target-range
characters, `score = 0 ≥ 0` holds, so the spec formula accepts, but the
code returns false from its `total_chars == 0` early return — before
even consulting the auxiliary detector.  It also fails on `"اب "` (two
Arabic letters and a trailing space): the code's minimum-length test uses
the whitespace-stripped length (2), while the claim's reading of "text
... under the minimum length of 3 characters" passes at length 3 and the
score of 1 then accepts. -/
theorem C4_detect_mismatch :
    (detect_farsi (fun _ => none) "۱۲۳" 0 = false ∧
      detect_farsi_spec (fun _ => none) "۱۲۳" 0 = true) ∧
    (detect_farsi (fun _ => none) "اب " (1 / 10) = false ∧
      detect_farsi_spec (fun _ => none) "اب " (1 / 10) = true) := by
  refine ⟨⟨by decide, ?_⟩, by decide, ?_⟩
  · simp only [detect_farsi_spec, farsi_score]
    norm_num [show countAlpha "۱۲۳" = 0 from by decide,
      show has_farsi_chars "۱۲۳" = true from by decide,
      show ("۱۲۳" : String).length = 3 from by decide,
      show (("۱۲۳" : String) = "") = False from by decide]
  · simp only [detect_farsi_spec, farsi_score]
    norm_num [show countAlpha "اب " = 2 from by decide,
      show countPersian "اب " = 2 from by decide,
      show has_farsi_chars "اب " = true from by decide,
      show ("اب " : String).length = 3 from by decide,
      show (("اب " : String) = "") = False from by decide]

open FarsiDetector in
/-- C4 (amended): `detect_farsi` returns false when the
whitespace-stripped text is shorter than 3 characters; otherwise it
returns true iff the text contains a target-script character AND at least
one alphabetic code point AND (`score ≥ min_ratio` OR the auxiliary
detector reports `fa`); a raised auxiliary-detector exception is `none`
here and never propagates.  Concretely, `"سلام دنیا"` at threshold `0.1`
is accepted and `"Hello World"` is rejected, for every auxiliary-detector
behaviour. -/
theorem C4_detect_farsi_characterisation :
    (∀ det text (minRat : ℚ),
      detect_farsi det text minRat =
        (decide (3 ≤ (pyStrip text).length) && has_farsi_chars text &&
          decide (countAlpha text ≠ 0) &&
          (decide (farsi_score text ≥ minRat) || decide (det text = some "fa")))) ∧
    (∀ det, detect_farsi det "سلام دنیا" (1 / 10) = true) ∧
    (∀ det (minRat : ℚ), detect_farsi det "Hello World" minRat = false) := by
  have hmain : ∀ det text (minRat : ℚ),
      detect_farsi det text minRat =
        (decide (3 ≤ (pyStrip text).length) && has_farsi_chars text &&
          decide (countAlpha text ≠ 0) &&
          (decide (farsi_score text ≥ minRat) || decide (det text = some "fa"))) := by
    intro det text minRat
    by_cases h1 : (pyStrip text).length < 3
    · have h1' : ¬ 3 ≤ (pyStrip text).length := by omega
      simp [detect_farsi, h1, h1']
    · have h1' : 3 ≤ (pyStrip text).length := by omega
      by_cases h2 : has_farsi_chars text
      · by_cases h3 : countAlpha text = 0
        · simp [detect_farsi, h1, h1', h2, h3]
        · by_cases h4 : det text = some "fa"
          · simp [detect_farsi, h1, h1', h2, h3, h4]
          · have hs : farsi_score text =
                (countPersian text : ℚ) / (countAlpha text : ℚ) := by
              simp [farsi_score, h3]
            simp [detect_farsi, h1, h1', h2, h3, h4, hs]
      · simp [detect_farsi, h1, h2]
  refine ⟨hmain, ?_, ?_⟩
  · intro det
    rw [hmain det]
    have hs : farsi_score "سلام دنیا" = 1 := by
      simp only [farsi_score]
      norm_num [show countPersian "سلام دنیا" = 8 from by decide,
        show countAlpha "سلام دنیا" = 8 from by decide]
    have hge : decide (farsi_score "سلام دنیا" ≥ (1 : ℚ) / 10) = true := by
      rw [hs]; norm_num
    rw [hge]
    norm_num [show (pyStrip "سلام دنیا").length = 9 from by decide,
      show has_farsi_chars "سلام دنیا" = true from by decide,
      show countAlpha "سلام دنیا" = 8 from by decide]
  · intro det minRat
    rw [hmain det]
    simp [show has_farsi_chars "Hello World" = false from by decide]

/-! ## Claims about caption persistence -/

/-- C8: caption persistence at the failing input, on both insert paths.
Through `VideoDatabase.insert_subtitle` — the interface the scraping
pipeline uses — both inserts of the `("v1", "fa")` track fail (the insert
names columns absent from the schema) and zero rows are stored, against
the claimed "exactly one stored row reflecting the latest content".
Through `DatabaseManager.insert_subtitle` the claim's behaviour does
hold: two inserts with the identical `(content_id, language, kind)`
triple leave exactly one row, carrying the second content — and after any
single insert, exactly one row with that triple exists. -/
theorem C8_caption_persistence :
    ((VideoDatabase.insert_subtitle
        (VideoDatabase.insert_subtitle ⟨[], []⟩ "v1" "fa" "hello first" "srt"
          "downsub.com" "").1
        "v1" "fa" "hello second" "srt" "downsub.com" "").1.subtitles = [] ∧
      (VideoDatabase.insert_subtitle ⟨[], []⟩ "v1" "fa" "hello first" "srt"
        "downsub.com" "").2 = false) ∧
    (DatabaseManager.insert_subtitle
        (DatabaseManager.insert_subtitle ⟨[], []⟩ "v1" "fa" "manual"
          "hello first" none).1
        "v1" "fa" "manual" "hello second" none).1.subtitles =
      [⟨"v1", "fa", "manual", "hello second", none⟩] ∧
    (∀ st vid lang stype content fp,
      ((DatabaseManager.insert_subtitle st vid lang stype content fp).1.subtitles.filter
          (fun r => r.videoId == vid && r.language == lang &&
            r.subtitleType == stype)) =
        [⟨vid, lang, stype, content, fp⟩]) := by
  refine ⟨⟨by decide, by decide⟩, by decide, ?_⟩
  intro st vid lang stype content fp
  simp only [DatabaseManager.insert_subtitle, List.filter_append]
  rw [List.filter_filter]
  have h1 : (st.subtitles.filter fun r =>
      (r.videoId == vid && r.language == lang && r.subtitleType == stype) &&
        !(r.videoId == vid && r.language == lang && r.subtitleType == stype)) = [] := by
    apply List.filter_eq_nil_iff.mpr
    intro r _
    cases r.videoId == vid && r.language == lang && r.subtitleType == stype <;> simp
  rw [h1]
  simp

/-- C9: the subtitle counter of the scraping pipeline versus the rows
actually persisted, at the failing input.  `_process_video` on a fresh
item with one downloadable `fa` subtitle file reports
`subtitles_count = 1` and success even though `VideoDatabase.insert_subtitle`
failed and zero caption rows were persisted.  Its API-pipeline sibling
(`_process_single_video`'s storing loop) does behave as claimed: it counts
`1` exactly when one row is persisted. -/
theorem C9_subtitle_count_vs_persisted :
    (let dl : String → DownloadResult := fun _ => ⟨true, [("fa", some "/subs/a.srt")]⟩
     let rf : String → Option String := fun _ => some "subtitle text"
     let out := _process_video dl rf ⟨[], []⟩ ⟨some "aaaaaaaaaaa", "", "", "", "", "u", 0⟩ true
     out.1.subtitlesCount = 1 ∧ out.1.success = true ∧ out.2.subtitles = []) ∧
    storeSubtitlesSingle "aaaaaaaaaaa" [⟨"fa", "manual", "subtitle text", none⟩] ⟨[], []⟩ =
      (1, ⟨[], [⟨"aaaaaaaaaaa", "fa", "manual", "subtitle text", none⟩]⟩) := by
  constructor
  · refine ⟨by decide, by decide, by decide⟩
  · decide

/-! ## Helper lemmas about `_process_video` and the processing loop -/

lemma video_exists_insert_self (st : Store) (row : VideoRow) :
    video_exists (insert_video st row).1 row.videoId = true := by
  simp [video_exists, insert_video]

lemma video_exists_insert_mono (st : Store) (row : VideoRow) (w : String)
    (h : video_exists st w = true) :
    video_exists (insert_video st row).1 w = true := by
  simp only [video_exists, insert_video, List.any_eq_true, beq_iff_eq] at h ⊢
  obtain ⟨r, hr, hv⟩ := h
  by_cases hc : r.videoId = row.videoId
  · exact ⟨row, by simp, by rw [← hc, hv]⟩
  · refine ⟨r, ?_, hv⟩
    simp [List.mem_filter, hr, bne_iff_ne, hc]

lemma storeSubtitles_store (rf : String → Option String) (vid : String)
    (files : List (String × Option String)) (st : Store) :
    (storeSubtitles rf vid files st).2 = st := by
  induction files with
  | nil => rfl
  | cons p rest ih =>
    obtain ⟨lang, pathOpt⟩ := p
    cases pathOpt with
    | none => simpa [storeSubtitles] using ih
    | some path =>
      cases hr : rf path with
      | none => simpa [storeSubtitles, hr] using ih
      | some c => simpa [storeSubtitles, hr, VideoDatabase.insert_subtitle] using ih

lemma process_video_none (dl : String → DownloadResult)
    (rf : String → Option String) (st : Store) (v : VideoInfo) (dc : Bool)
    (h : v.videoId = none) :
    _process_video dl rf st v dc =
      (⟨none, false, 0, false, some "No video ID found", false⟩, st) := by
  simp [_process_video, h]

lemma process_video_skip (dl : String → DownloadResult)
    (rf : String → Option String) (st : Store) (v : VideoInfo) (dc : Bool)
    (vid : String) (h1 : v.videoId = some vid)
    (h2 : video_exists st vid = true) :
    _process_video dl rf st v dc = (⟨some vid, true, 0, false, none, true⟩, st) := by
  simp [_process_video, h1, h2]

lemma process_video_success (dl : String → DownloadResult)
    (rf : String → Option String) (st : Store) (v : VideoInfo) (dc : Bool) :
    (_process_video dl rf st v dc).1.success = v.videoId.isSome := by
  cases h : v.videoId with
  | none => simp [process_video_none dl rf st v dc h]
  | some vid =>
    by_cases h2 : video_exists st vid = true
    · simp [process_video_skip dl rf st v dc vid h h2]
    · simp only [_process_video, h, Bool.not_eq_true] at h2 ⊢
      rw [h2]
      cases dc <;> cases (dl v.url).success <;> simp

lemma process_video_mono (dl : String → DownloadResult)
    (rf : String → Option String) (st : Store) (v : VideoInfo) (dc : Bool)
    (w : String) (h : video_exists st w = true) :
    video_exists (_process_video dl rf st v dc).2 w = true := by
  cases hid : v.videoId with
  | none => rw [process_video_none dl rf st v dc hid]; exact h
  | some vid =>
    by_cases h2 : video_exists st vid = true
    · rw [process_video_skip dl rf st v dc vid hid h2]; exact h
    · simp only [_process_video, hid, Bool.not_eq_true] at h2 ⊢
      rw [h2]
      have hmono := video_exists_insert_mono st
        ⟨vid, v.title, v.description, v.channel, "", v.duration, 0, 0, "fa",
          v.url, v.farsiScore, ""⟩ w h
      cases dc with
      | false => simpa using hmono
      | true =>
        cases hdl : (dl v.url).success with
        | false => simp only [hdl]; simpa using hmono
        | true =>
          simp only [hdl]
          simpa [storeSubtitles_store] using hmono

lemma process_video_estab (dl : String → DownloadResult)
    (rf : String → Option String) (st : Store) (v : VideoInfo) (dc : Bool)
    (vid : String) (h1 : v.videoId = some vid) :
    video_exists (_process_video dl rf st v dc).2 vid = true := by
  by_cases h2 : video_exists st vid = true
  · rw [process_video_skip dl rf st v dc vid h1 h2]; exact h2
  · simp only [_process_video, h1, Bool.not_eq_true] at h2 ⊢
    rw [h2]
    have hself := video_exists_insert_self st
      ⟨vid, v.title, v.description, v.channel, "", v.duration, 0, 0, "fa",
        v.url, v.farsiScore, ""⟩
    cases dc with
    | false => simpa using hself
    | true =>
      cases hdl : (dl v.url).success with
      | false => simp only [hdl]; simpa using hself
      | true =>
        simp only [hdl]
        simpa [storeSubtitles_store] using hself

/-- The number of items of the processed list carrying a (truthy) id. -/
def countSomeIds (items : List VideoInfo) : Nat :=
  items.countP (fun v => v.videoId.isSome)

lemma processVideos_found (dl : String → DownloadResult)
    (rf : String → Option String) (dc : Bool) (items : List VideoInfo) :
    ∀ st stats skips,
      (processVideos dl rf dc items st stats skips).1.videosFound = stats.videosFound := by
  induction items with
  | nil => intro st stats skips; rfl
  | cons v rest ih =>
    intro st stats skips
    simp only [processVideos]
    split <;> simp [ih]

lemma processVideos_processed (dl : String → DownloadResult)
    (rf : String → Option String) (dc : Bool) (items : List VideoInfo) :
    ∀ st stats skips,
      (processVideos dl rf dc items st stats skips).1.videosProcessed =
        stats.videosProcessed + countSomeIds items := by
  induction items with
  | nil => intro st stats skips; simp [processVideos, countSomeIds]
  | cons v rest ih =>
    intro st stats skips
    simp only [processVideos]
    rw [show ((_process_video dl rf st v dc).1.success) = v.videoId.isSome from
      process_video_success dl rf st v dc]
    cases hid : v.videoId with
    | none =>
      simp only [Option.isSome_none, Bool.false_eq_true, if_neg, ite_false]
      rw [ih]
      simp [countSomeIds, hid]
    | some vid =>
      simp only [Option.isSome_some, ite_true]
      rw [ih]
      simp only [countSomeIds, List.countP_cons, hid]
      simp [Nat.add_assoc, Nat.add_comm 1]

lemma processVideos_err_sum (dl : String → DownloadResult)
    (rf : String → Option String) (dc : Bool) (items : List VideoInfo) :
    ∀ st stats skips,
      (processVideos dl rf dc items st stats skips).1.videosProcessed +
          (processVideos dl rf dc items st stats skips).1.errors =
        stats.videosProcessed + stats.errors + items.length := by
  induction items with
  | nil => intro st stats skips; simp [processVideos]
  | cons v rest ih =>
    intro st stats skips
    simp only [processVideos]
    split
    · rw [ih]; simp; omega
    · rw [ih]; simp; omega

lemma processVideos_mono (dl : String → DownloadResult)
    (rf : String → Option String) (dc : Bool) (items : List VideoInfo) :
    ∀ st stats skips w, video_exists st w = true →
      video_exists (processVideos dl rf dc items st stats skips).2.2 w = true := by
  induction items with
  | nil => intro st stats skips w h; exact h
  | cons v rest ih =>
    intro st stats skips w h
    simp only [processVideos]
    split <;> exact ih _ _ _ w (process_video_mono dl rf st v dc w h)

lemma processVideos_estab (dl : String → DownloadResult)
    (rf : String → Option String) (dc : Bool) (items : List VideoInfo) :
    ∀ st stats skips, ∀ v ∈ items, ∀ vid, v.videoId = some vid →
      video_exists (processVideos dl rf dc items st stats skips).2.2 vid = true := by
  induction items with
  | nil => intro st stats skips v hv; exact absurd hv (List.not_mem_nil v)
  | cons u rest ih =>
    intro st stats skips v hv vid hvid
    rcases List.mem_cons.mp hv with heq | htail
    · subst heq
      simp only [processVideos]
      split <;>
        exact processVideos_mono dl rf dc rest _ _ _ vid
          (process_video_estab dl rf st v dc vid hvid)
    · simp only [processVideos]
      split <;> exact ih _ _ _ v htail vid hvid

lemma processVideos_all_exist (dl : String → DownloadResult)
    (rf : String → Option String) (dc : Bool) (items : List VideoInfo) :
    ∀ st stats skips,
      (∀ v ∈ items, ∀ vid, v.videoId = some vid → video_exists st vid = true) →
      (processVideos dl rf dc items st stats skips).2.2 = st ∧
        (processVideos dl rf dc items st stats skips).2.1 =
          skips + countSomeIds items := by
  induction items with
  | nil => intro st stats skips _; simp [processVideos, countSomeIds]
  | cons v rest ih =>
    intro st stats skips hall
    have htail : ∀ u ∈ rest, ∀ w, u.videoId = some w → video_exists st w = true :=
      fun u hu w hw => hall u (List.mem_cons_of_mem v hu) w hw
    cases hid : v.videoId with
    | none =>
      simp only [processVideos, process_video_none dl rf st v dc hid]
      simp only [Bool.false_eq_true, if_false]
      constructor
      · exact (ih st _ _ htail).1
      · rw [(ih st _ _ htail).2]
        simp [countSomeIds, hid, List.countP_cons]
    | some vid =>
      have hex : video_exists st vid = true := hall v (List.mem_cons_self v rest) vid hid
      simp only [processVideos, process_video_skip dl rf st v dc vid hid hex]
      simp only [if_true]
      constructor
      · exact (ih st _ _ htail).1
      · rw [(ih st _ _ htail).2]
        simp [countSomeIds, hid, List.countP_cons]
        omega

/-! ## Claim C7: idempotent ingestion -/

/-- C7: ingestion is idempotent.  An item whose id is already in the
store is a no-op reported as success (with the ghost `skipped` flag set);
running the processing loop twice on the same accepted-item sequence
against the same store leaves the store identical to what the first run
produced, and the second run's skip count equals the first run's
processed (accepted) count. -/
theorem C7_ingestion_idempotent :
    (∀ dl rf st v dc vid, v.videoId = some vid → video_exists st vid = true →
      _process_video dl rf st v dc = (⟨some vid, true, 0, false, none, true⟩, st)) ∧
    (∀ dl rf dc items (st : Store),
      (processVideos dl rf dc items
          (processVideos dl rf dc items st ⟨items.length, 0, 0, 0, 0⟩ 0).2.2
          ⟨items.length, 0, 0, 0, 0⟩ 0).2.2 =
        (processVideos dl rf dc items st ⟨items.length, 0, 0, 0, 0⟩ 0).2.2 ∧
      (processVideos dl rf dc items
          (processVideos dl rf dc items st ⟨items.length, 0, 0, 0, 0⟩ 0).2.2
          ⟨items.length, 0, 0, 0, 0⟩ 0).2.1 =
        (processVideos dl rf dc items st ⟨items.length, 0, 0, 0, 0⟩ 0).1.videosProcessed) := by
  constructor
  · intro dl rf st v dc vid h1 h2
    exact process_video_skip dl rf st v dc vid h1 h2
  · intro dl rf dc items st
    have hall : ∀ v ∈ items, ∀ vid, v.videoId = some vid →
        video_exists (processVideos dl rf dc items st ⟨items.length, 0, 0, 0, 0⟩ 0).2.2 vid = true :=
      fun v hv vid hvid => processVideos_estab dl rf dc items st _ 0 v hv vid hvid
    have h2 := processVideos_all_exist dl rf dc items
      (processVideos dl rf dc items st ⟨items.length, 0, 0, 0, 0⟩ 0).2.2
      ⟨items.length, 0, 0, 0, 0⟩ 0 hall
    have h1 := processVideos_processed dl rf dc items st ⟨items.length, 0, 0, 0, 0⟩ 0
    exact ⟨h2.1, by rw [h2.2, h1]⟩

/-- C7 witness: processing an item whose id `"v1"` is already stored is a
no-op success. -/
theorem C7_ingestion_idempotent_witness :
    _process_video (fun _ => ⟨false, []⟩) (fun _ => none)
        ⟨[⟨"v1", "", "", "", "", "", 0, 0, "fa", "", 0, ""⟩], []⟩
        ⟨some "v1", "", "", "", "", "", 0⟩ false =
      (⟨some "v1", true, 0, false, none, true⟩,
        ⟨[⟨"v1", "", "", "", "", "", 0, 0, "fa", "", 0, ""⟩], []⟩) :=
  C7_ingestion_idempotent.1 (fun _ => ⟨false, []⟩) (fun _ => none)
    ⟨[⟨"v1", "", "", "", "", "", 0, 0, "fa", "", 0, ""⟩], []⟩
    ⟨some "v1", "", "", "", "", "", 0⟩ false "v1" rfl (by decide)

/-! ## Helper lemmas about the crawl loop -/

lemma crawlStep_skip (o : String → Option Page) (s : CrawlState) (u : String)
    (rest : List String) (hq : s.queue = u :: rest) (hv : u ∈ s.visited) :
    crawlStep o s = { s with queue := rest } := by
  unfold crawlStep
  rw [hq]
  simp [hv]

lemma crawlStep_raise (o : String → Option Page) (s : CrawlState) (u : String)
    (rest : List String) (hq : s.queue = u :: rest) (hv : u ∉ s.visited)
    (he : extract_video_id u = none) :
    crawlStep o s =
      { s with
          visited := u :: s.visited,
          queue := rest,
          raised := s.raised ++ [u] } := by
  unfold crawlStep
  rw [hq]
  simp [hv, he]

lemma crawlStep_fail (o : String → Option Page) (s : CrawlState) (u : String)
    (rest : List String) (vid : String) (hq : s.queue = u :: rest)
    (hv : u ∉ s.visited) (he : extract_video_id u = some vid) (ho : o u = none) :
    crawlStep o s =
      { s with
          visited := u :: s.visited,
          queue := rest.take 100,
          fetched := s.fetched ++ [u],
          fetchErrors := s.fetchErrors ++ [u] } := by
  unfold crawlStep
  rw [hq]
  simp [hv, he, ho]

lemma crawlStep_ok (o : String → Option Page) (s : CrawlState) (u : String)
    (rest : List String) (vid : String) (page : Page) (hq : s.queue = u :: rest)
    (hv : u ∉ s.visited) (he : extract_video_id u = some vid)
    (ho : o u = some page) :
    crawlStep o s =
      { s with
          visited := u :: s.visited,
          fetched := s.fetched ++ [u],
          farsiVideos :=
            if page.isFarsi then s.farsiVideos ++ [u] else s.farsiVideos,
          queue :=
            (rest ++ (page.related.filter
                (fun r => r.isFarsi && decide (r.url ∉ u :: s.visited))).map
              (fun r => r.url)).take 100 } := by
  unfold crawlStep
  rw [hq]
  simp [hv, he, ho]

lemma crawlStep_visited_mono (o : String → Option Page) (s : CrawlState) :
    ∀ x ∈ s.visited, x ∈ (crawlStep o s).visited := by
  intro x hx
  rcases hq : s.queue with _ | ⟨u, rest⟩
  · unfold crawlStep; rw [hq]; exact hx
  · by_cases hv : u ∈ s.visited
    · rw [crawlStep_skip o s u rest hq hv]; exact hx
    · rcases he : extract_video_id u with _ | vid
      · rw [crawlStep_raise o s u rest hq hv he]; exact List.mem_cons_of_mem u hx
      · rcases ho : o u with _ | page
        · rw [crawlStep_fail o s u rest vid hq hv he ho]
          exact List.mem_cons_of_mem u hx
        · rw [crawlStep_ok o s u rest vid page hq hv he ho]
          exact List.mem_cons_of_mem u hx

/-- The invariant behind the no-refetch guarantee: the fetch trace has no
duplicates and every fetched locator is in `visited`. -/
def CrawlInv (s : CrawlState) : Prop :=
  s.fetched.Nodup ∧ ∀ x ∈ s.fetched, x ∈ s.visited

lemma fetched_append_inv (s : CrawlState) (u : String) (h : CrawlInv s)
    (hv : u ∉ s.visited) :
    (s.fetched ++ [u]).Nodup ∧ ∀ x ∈ s.fetched ++ [u], x ∈ u :: s.visited := by
  constructor
  · refine h.1.append (List.nodup_singleton u) ?_
    intro x hx hxu
    rw [List.mem_singleton] at hxu
    exact hv (hxu ▸ h.2 x hx)
  · intro x hx
    rcases List.mem_append.mp hx with hx | hx
    · exact List.mem_cons_of_mem u (h.2 x hx)
    · rw [List.mem_singleton] at hx; exact hx ▸ List.mem_cons_self u s.visited

lemma crawlStep_inv (o : String → Option Page) (s : CrawlState)
    (h : CrawlInv s) : CrawlInv (crawlStep o s) := by
  rcases hq : s.queue with _ | ⟨u, rest⟩
  · unfold crawlStep; rw [hq]; exact h
  · by_cases hv : u ∈ s.visited
    · rw [crawlStep_skip o s u rest hq hv]; exact h
    · rcases he : extract_video_id u with _ | vid
      · rw [crawlStep_raise o s u rest hq hv he]
        exact ⟨h.1, fun x hx => List.mem_cons_of_mem u (h.2 x hx)⟩
      · rcases ho : o u with _ | page
        · rw [crawlStep_fail o s u rest vid hq hv he ho]
          exact fetched_append_inv s u h hv
        · rw [crawlStep_ok o s u rest vid page hq hv he ho]
          exact fetched_append_inv s u h hv

lemma crawlAux_inv (o : String → Option Page) (maxV : Nat) :
    ∀ fuel s, CrawlInv s → CrawlInv (crawlAux o maxV fuel s) := by
  intro fuel
  induction fuel with
  | zero => intro s h; exact h
  | succ n ih =>
    intro s h
    rw [crawlAux]
    split
    · exact h
    · exact ih _ (crawlStep_inv o s h)

lemma crawlAux_visited_mono (o : String → Option Page) (maxV : Nat) :
    ∀ fuel s x, x ∈ s.visited → x ∈ (crawlAux o maxV fuel s).visited := by
  intro fuel
  induction fuel with
  | zero => intro s x h; exact h
  | succ n ih =>
    intro s x h
    rw [crawlAux]
    split
    · exact h
    · exact ih _ x (crawlStep_visited_mono o s x h)

lemma crawlStep_count (o : String → Option Page) (s : CrawlState) (u : String)
    (hu : u ∈ s.visited) :
    (crawlStep o s).fetched.count u = s.fetched.count u := by
  rcases hq : s.queue with _ | ⟨w, rest⟩
  · unfold crawlStep; rw [hq]
  · by_cases hv : w ∈ s.visited
    · rw [crawlStep_skip o s w rest hq hv]
    · have hwu : w ≠ u := fun h => hv (h ▸ hu)
      rcases he : extract_video_id w with _ | vid
      · rw [crawlStep_raise o s w rest hq hv he]
      · rcases ho : o w with _ | page
        · rw [crawlStep_fail o s w rest vid hq hv he ho]
          simp [List.count_append, List.count_singleton, hwu]
        · rw [crawlStep_ok o s w rest vid page hq hv he ho]
          simp [List.count_append, List.count_singleton, hwu]

lemma crawlAux_count (o : String → Option Page) (maxV : Nat) :
    ∀ fuel s u, u ∈ s.visited →
      (crawlAux o maxV fuel s).fetched.count u = s.fetched.count u := by
  intro fuel
  induction fuel with
  | zero => intro s u _; rfl
  | succ n ih =>
    intro s u h
    rw [crawlAux]
    split
    · rfl
    · rw [ih _ u (crawlStep_visited_mono o s u h), crawlStep_count o s u h]

lemma crawlStep_queue_sub (o : String → Option Page) (s : CrawlState)
    (u : String) (rest : List String) (hq : s.queue = u :: rest)
    (hv : u ∉ s.visited) :
    ∀ v ∈ (crawlStep o s).queue, v ∈ rest ∨ (v ∉ s.visited ∧ v ≠ u) := by
  intro v hmem
  rcases he : extract_video_id u with _ | vid
  · rw [crawlStep_raise o s u rest hq hv he] at hmem
    exact Or.inl hmem
  · rcases ho : o u with _ | page
    · rw [crawlStep_fail o s u rest vid hq hv he ho] at hmem
      exact Or.inl (List.take_subset 100 rest hmem)
    · rw [crawlStep_ok o s u rest vid page hq hv he ho] at hmem
      have hmem' := List.take_subset 100 _ hmem
      rcases List.mem_append.mp hmem' with hl | hr
      · exact Or.inl hl
      · right
        obtain ⟨r, hrmem, hrurl⟩ := List.mem_map.mp hr
        obtain ⟨_, hcond⟩ := List.mem_filter.mp hrmem
        rw [Bool.and_eq_true, decide_eq_true_eq] at hcond
        have hnotin : r.url ∉ u :: s.visited := hcond.2
        rw [hrurl] at hnotin
        exact ⟨fun hvv => hnotin (List.mem_cons_of_mem u hvv),
          fun hvu => hnotin (hvu ▸ List.mem_cons_self u s.visited)⟩

lemma crawlStep_results_le (o : String → Option Page) (s : CrawlState) :
    (crawlStep o s).farsiVideos.length ≤ s.farsiVideos.length + 1 := by
  rcases hq : s.queue with _ | ⟨u, rest⟩
  · unfold crawlStep; rw [hq]; exact Nat.le_succ _
  · by_cases hv : u ∈ s.visited
    · rw [crawlStep_skip o s u rest hq hv]; exact Nat.le_succ _
    · rcases he : extract_video_id u with _ | vid
      · rw [crawlStep_raise o s u rest hq hv he]; exact Nat.le_succ _
      · rcases ho : o u with _ | page
        · rw [crawlStep_fail o s u rest vid hq hv he ho]; exact Nat.le_succ _
        · rw [crawlStep_ok o s u rest vid page hq hv he ho]
          cases page.isFarsi <;> simp

lemma crawlAux_results_le (o : String → Option Page) (maxV : Nat) :
    ∀ fuel s, s.farsiVideos.length ≤ maxV →
      (crawlAux o maxV fuel s).farsiVideos.length ≤ maxV := by
  intro fuel
  induction fuel with
  | zero => intro s h; exact h
  | succ n ih =>
    intro s h
    rw [crawlAux]
    split
    · exact h
    · rename_i hguard
      rw [crawlDone, not_or, Nat.not_le] at hguard
      have := crawlStep_results_le o s
      exact ih _ (by omega)

/-! ## Claims about the frontier crawl -/

/-- C1 counterexample: two distinct locators carrying the same content id
are both fetched.  The seed `watch?v=` URL's page offers the `youtu.be`
form of the same video as a Farsi related link; the visited set is keyed
by URL, so the second locator is fetched too: 2 page fetches, 1 distinct
fetched id. -/
theorem C1_same_id_fetched_twice :
    (let oracle : String → Option Page := fun u =>
      if u = "https://www.youtube.com/watch?v=aaaaaaaaaaa" then
        some ⟨true, [⟨"https://youtu.be/aaaaaaaaaaa", true⟩]⟩
      else if u = "https://youtu.be/aaaaaaaaaaa" then some ⟨true, []⟩
      else none
     let res := find_farsi_videos oracle
       "https://www.youtube.com/watch?v=aaaaaaaaaaa" 50 10
     res.fetched.length = 2 ∧
       (res.fetched.filterMap extract_video_id).dedup.length = 1 ∧
       res.fetched.length ≠
         (res.fetched.filterMap extract_video_id).dedup.length) := by
  decide

/-- C1 (amended): no locator is fetched twice in a run — the fetch trace
has no duplicate URLs, so the number of page-fetch calls equals the
number of distinct fetched locators.  (Distinct locators can carry the
same content id, which is then fetched once per locator form.) -/
theorem C1_no_locator_fetched_twice :
    ∀ oracle seed maxV fuel,
      (find_farsi_videos oracle seed maxV fuel).fetched.Nodup ∧
      (find_farsi_videos oracle seed maxV fuel).fetched.length =
        (find_farsi_videos oracle seed maxV fuel).fetched.dedup.length := by
  intro oracle seed maxV fuel
  have h : CrawlInv (find_farsi_videos oracle seed maxV fuel) :=
    crawlAux_inv oracle maxV fuel (initState seed)
      ⟨List.nodup_nil, by simp [initState]⟩
  exact ⟨h.1, by rw [List.dedup_eq_self.mpr h.1]⟩

/-- C2 counterexample: the visited set and the queue are not disjoint at
every step, and a candidate already in the queue is enqueued again.  The
seed's page relates the same URL twice; after one step the queue holds it
twice, and after the second step it is both visited and still queued. -/
theorem C2_visited_meets_queue :
    (let oracle : String → Option Page := fun u =>
      if u = "https://www.youtube.com/watch?v=aaaaaaaaaaa" then
        some ⟨true, [⟨"https://youtu.be/aaaaaaaaaaa", true⟩,
          ⟨"https://youtu.be/aaaaaaaaaaa", true⟩]⟩
      else some ⟨false, []⟩
     let s1 := find_farsi_videos oracle
       "https://www.youtube.com/watch?v=aaaaaaaaaaa" 50 1
     let s2 := find_farsi_videos oracle
       "https://www.youtube.com/watch?v=aaaaaaaaaaa" 50 2
     s1.queue = ["https://youtu.be/aaaaaaaaaaa", "https://youtu.be/aaaaaaaaaaa"] ∧
       "https://youtu.be/aaaaaaaaaaa" ∈ s2.visited ∧
       "https://youtu.be/aaaaaaaaaaa" ∈ s2.queue) := by
  decide

/-- C2 (amended): a related candidate is enqueued only if not already
visited — queue membership is not checked, so duplicates can be enqueued
and an id entering visited can remain in the queue; such stale entries
are discarded without fetching when popped: popping an already-visited
locator changes nothing but the queue. -/
theorem C2_enqueue_filter :
    (∀ oracle (s : CrawlState) u rest, s.queue = u :: rest → u ∈ s.visited →
      crawlStep oracle s = { s with queue := rest }) ∧
    (∀ oracle (s : CrawlState) u rest v, s.queue = u :: rest →
      u ∉ s.visited → v ∈ (crawlStep oracle s).queue →
      v ∈ rest ∨ (v ∉ s.visited ∧ v ≠ u)) :=
  ⟨fun oracle s u rest hq hv => crawlStep_skip oracle s u rest hq hv,
   fun oracle s u rest v hq hv hmem =>
     crawlStep_queue_sub oracle s u rest hq hv v hmem⟩

/-- C2 witness: `C2_enqueue_filter` at concrete states — popping the
visited `"a"` only shortens the queue, and a freshly enqueued related URL
was not previously visited. -/
theorem C2_enqueue_filter_witness :
    crawlStep (fun _ => none) ⟨[], ["a"], ["a", "b"], [], [], []⟩ =
      ⟨[], ["a"], ["b"], [], [], []⟩ ∧
    ("r1" ∈ (["x"] : List String) ∨
      ("r1" ∉ (["y"] : List String) ∧ "r1" ≠ "https://youtu.be/aaaaaaaaaaa")) :=
  ⟨C2_enqueue_filter.1 (fun _ => none) ⟨[], ["a"], ["a", "b"], [], [], []⟩
      "a" ["b"] rfl (by decide),
   C2_enqueue_filter.2
      (fun _ => some ⟨true, [⟨"r1", true⟩]⟩)
      ⟨[], ["y"], ["https://youtu.be/aaaaaaaaaaa", "x"], [], [], []⟩
      "https://youtu.be/aaaaaaaaaaa" ["x"] "r1" rfl (by decide) (by decide)⟩

/-- C3: the crawl never yields more than `max_items` accepted items; a
crawl with `max_items = 2` over a frontier supplying five eligible
candidates stops at a terminal state (`crawlDone`) with exactly 2
accepted items and a non-empty, discarded queue. -/
theorem C3_max_items_cap :
    (∀ oracle seed maxV fuel,
      (find_farsi_videos oracle seed maxV fuel).farsiVideos.length ≤ maxV) ∧
    (let oracle : String → Option Page := fun u =>
      if u = "https://www.youtube.com/watch?v=ccccccccccc" then
        some ⟨true, [⟨"https://www.youtube.com/watch?v=ddddddddddd", true⟩,
          ⟨"https://www.youtube.com/watch?v=eeeeeeeeeee", true⟩,
          ⟨"https://www.youtube.com/watch?v=fffffffffff", true⟩,
          ⟨"https://www.youtube.com/watch?v=ggggggggggg", true⟩,
          ⟨"https://www.youtube.com/watch?v=hhhhhhhhhhh", true⟩]⟩
      else some ⟨true, []⟩
     let res := find_farsi_videos oracle
       "https://www.youtube.com/watch?v=ccccccccccc" 2 10
     res.farsiVideos.length = 2 ∧ res.queue ≠ [] ∧ crawlDone 2 res) := by
  constructor
  · intro oracle seed maxV fuel
    exact crawlAux_results_le oracle maxV fuel (initState seed)
      (by simp [initState])
  · decide

/-- C10: a locator enters `visited` in the same step that attempts its
fetch, whatever the fetch outcome; every fetched locator is in the final
visited set; and from any state, a locator already in `visited` is never
fetched again (its count in the fetch trace never grows) while staying in
`visited` — so a locator whose fetch failed is never retried within the
run. -/
theorem C10_failed_fetch_permanent :
    (∀ oracle (s : CrawlState) u rest, s.queue = u :: rest →
      u ∉ s.visited → (crawlStep oracle s).visited = u :: s.visited) ∧
    (∀ oracle seed maxV fuel,
      ∀ u ∈ (find_farsi_videos oracle seed maxV fuel).fetched,
        u ∈ (find_farsi_videos oracle seed maxV fuel).visited) ∧
    (∀ oracle maxV fuel (s : CrawlState) u, u ∈ s.visited →
      (crawlAux oracle maxV fuel s).fetched.count u = s.fetched.count u ∧
        u ∈ (crawlAux oracle maxV fuel s).visited) := by
  refine ⟨?_, ?_, ?_⟩
  · intro oracle s u rest hq hv
    rcases he : extract_video_id u with _ | vid
    · rw [crawlStep_raise oracle s u rest hq hv he]
    · rcases ho : oracle u with _ | page
      · rw [crawlStep_fail oracle s u rest vid hq hv he ho]
      · rw [crawlStep_ok oracle s u rest vid page hq hv he ho]
  · intro oracle seed maxV fuel u hu
    have h : CrawlInv (find_farsi_videos oracle seed maxV fuel) :=
      crawlAux_inv oracle maxV fuel (initState seed)
        ⟨List.nodup_nil, by simp [initState]⟩
    exact h.2 u hu
  · intro oracle maxV fuel s u hu
    exact ⟨crawlAux_count oracle maxV fuel s u hu,
      crawlAux_visited_mono oracle maxV fuel s u hu⟩

/-- C10 witness: `C10_failed_fetch_permanent` at concrete inputs — a step
on an unvisited head puts it at the front of visited; the single fetched
locator of a one-page run is visited; and a visited locator is not
fetched in three further iterations. -/
theorem C10_failed_fetch_permanent_witness :
    (crawlStep (fun _ => none)
        ⟨[], [], ["https://youtu.be/aaaaaaaaaaa"], [], [], []⟩).visited =
      ["https://youtu.be/aaaaaaaaaaa"] ∧
    ("https://youtu.be/aaaaaaaaaaa" ∈
      (find_farsi_videos (fun _ => none) "https://youtu.be/aaaaaaaaaaa" 5 3).visited) ∧
    ((crawlAux (fun _ => none) 5 3 ⟨[], ["a"], [], [], [], []⟩).fetched.count "a" =
        (([] : List String).count "a") ∧
      "a" ∈ (crawlAux (fun _ => none) 5 3 ⟨[], ["a"], [], [], [], []⟩).visited) :=
  ⟨C10_failed_fetch_permanent.1 (fun _ => none)
      ⟨[], [], ["https://youtu.be/aaaaaaaaaaa"], [], [], []⟩
      "https://youtu.be/aaaaaaaaaaa" [] rfl (by decide),
   C10_failed_fetch_permanent.2.1 (fun _ => none)
      "https://youtu.be/aaaaaaaaaaa" 5 3 "https://youtu.be/aaaaaaaaaaa"
      (by decide),
   C10_failed_fetch_permanent.2.2 (fun _ => none) 5 3
      ⟨[], ["a"], [], [], [], []⟩ "a" (by decide)⟩

/-! ## Claim C6: fetch-failure semantics -/

/-- C6 counterexample: a fetch failure does not increment the run's error
counter.  The seed page queues three locators; the first locator's fetch
fails, yet the final statistics report `errors = 0` (not the claimed `1`)
while the two remaining locators are still fetched and processed. -/
theorem C6_fetch_failure_not_counted :
    (let oracle : String → Option Page := fun u =>
      if u = "https://www.youtube.com/watch?v=ccccccccccc" then
        some ⟨false, [⟨"https://www.youtube.com/watch?v=ddddddddddd", true⟩,
          ⟨"https://www.youtube.com/watch?v=eeeeeeeeeee", true⟩,
          ⟨"https://www.youtube.com/watch?v=fffffffffff", true⟩]⟩
      else if u = "https://www.youtube.com/watch?v=ddddddddddd" then none
      else some ⟨true, []⟩
     let out := crawl_from_url oracle (fun _ => ⟨false, []⟩) (fun _ => none)
       "https://www.youtube.com/watch?v=ccccccccccc" 50 false 10 ⟨[], []⟩
     out.1.errors = 0 ∧ out.1.errors ≠ 1 ∧
       out.2.2.2.fetchErrors = ["https://www.youtube.com/watch?v=ddddddddddd"] ∧
       "https://www.youtube.com/watch?v=eeeeeeeeeee" ∈ out.2.2.2.fetched ∧
       "https://www.youtube.com/watch?v=fffffffffff" ∈ out.2.2.2.fetched ∧
       out.1.videosProcessed = 2) := by
  decide

/-- C6 (amended): a fetch exception on a queue entry is caught and the
loop proceeds to the next queue entry — one failing page never aborts the
crawl — but no error counter is incremented for fetch failures: the crawl
state holds no error counter, and the run's `errors` statistic counts
only processing failures, so `errors + videos_processed` always equals
the number of accepted items.  A fetch failure on the 1st of 3 queued
locators leaves `errors = 0` with the remaining 2 locators still fetched
and processed. -/
theorem C6_fetch_failure_semantics :
    (∀ oracle (s : CrawlState) u rest vid, s.queue = u :: rest →
      u ∉ s.visited → extract_video_id u = some vid → oracle u = none →
      crawlStep oracle s =
        { s with
            visited := u :: s.visited,
            queue := rest.take 100,
            fetched := s.fetched ++ [u],
            fetchErrors := s.fetchErrors ++ [u] }) ∧
    (∀ oracle dl rf seed maxV dc fuel st,
      (crawl_from_url oracle dl rf seed maxV dc fuel st).1.videosProcessed +
          (crawl_from_url oracle dl rf seed maxV dc fuel st).1.errors =
        (crawl_from_url oracle dl rf seed maxV dc fuel st).2.2.2.farsiVideos.length) ∧
    (let oracle : String → Option Page := fun u =>
      if u = "https://www.youtube.com/watch?v=ccccccccccc" then
        some ⟨false, [⟨"https://www.youtube.com/watch?v=ddddddddddd", true⟩,
          ⟨"https://www.youtube.com/watch?v=eeeeeeeeeee", true⟩,
          ⟨"https://www.youtube.com/watch?v=fffffffffff", true⟩]⟩
      else if u = "https://www.youtube.com/watch?v=ddddddddddd" then none
      else some ⟨true, []⟩
     let out := crawl_from_url oracle (fun _ => ⟨false, []⟩) (fun _ => none)
       "https://www.youtube.com/watch?v=ccccccccccc" 50 false 10 ⟨[], []⟩
     out.1.errors = 0 ∧ out.1.videosProcessed = 2 ∧
       out.2.2.2.fetched =
         ["https://www.youtube.com/watch?v=ccccccccccc",
          "https://www.youtube.com/watch?v=ddddddddddd",
          "https://www.youtube.com/watch?v=eeeeeeeeeee",
          "https://www.youtube.com/watch?v=fffffffffff"]) := by
  refine ⟨?_, ?_, by decide⟩
  · intro oracle s u rest vid hq hv he ho
    exact crawlStep_fail oracle s u rest vid hq hv he ho
  · intro oracle dl rf seed maxV dc fuel st
    have h := processVideos_err_sum dl rf dc
      ((find_farsi_videos oracle seed maxV fuel).farsiVideos.map itemOfUrl) st
      ⟨(find_farsi_videos oracle seed maxV fuel).farsiVideos.length, 0, 0, 0, 0⟩ 0
    simpa [crawl_from_url] using h

/-- C6 witness: the fetch-failure step of `C6_fetch_failure_semantics` at
a concrete state (the failing locator moves to visited, the queue moves
on), and the accounting identity on a concrete run. -/
theorem C6_fetch_failure_semantics_witness :
    crawlStep (fun _ => none)
        ⟨[], [], ["https://youtu.be/bbbbbbbbbbb", "q2"], [], [], []⟩ =
      ⟨[], ["https://youtu.be/bbbbbbbbbbb"], ["q2"],
        ["https://youtu.be/bbbbbbbbbbb"], ["https://youtu.be/bbbbbbbbbbb"], []⟩ ∧
    ((crawl_from_url (fun _ => some ⟨true, []⟩) (fun _ => ⟨false, []⟩)
          (fun _ => none) "https://youtu.be/bbbbbbbbbbb" 50 false 10
          ⟨[], []⟩).1.videosProcessed +
        (crawl_from_url (fun _ => some ⟨true, []⟩) (fun _ => ⟨false, []⟩)
          (fun _ => none) "https://youtu.be/bbbbbbbbbbb" 50 false 10
          ⟨[], []⟩).1.errors =
      (crawl_from_url (fun _ => some ⟨true, []⟩) (fun _ => ⟨false, []⟩)
          (fun _ => none) "https://youtu.be/bbbbbbbbbbb" 50 false 10
          ⟨[], []⟩).2.2.2.farsiVideos.length) :=
  ⟨C6_fetch_failure_semantics.1 (fun _ => none)
      ⟨[], [], ["https://youtu.be/bbbbbbbbbbb", "q2"], [], [], []⟩
      "https://youtu.be/bbbbbbbbbbb" ["q2"] "bbbbbbbbbbb" rfl (by decide)
      (by decide) rfl,
   C6_fetch_failure_semantics.2.1 (fun _ => some ⟨true, []⟩)
      (fun _ => ⟨false, []⟩) (fun _ => none) "https://youtu.be/bbbbbbbbbbb"
      50 false 10 ⟨[], []⟩⟩

end VidCollector
